import Mathlib

/-!
Verification of the authenticated CRUD request lifecycle of the
fastapi_quick_template repository, as a shallow embedding of the Python
source under src/api.  Machine-level details that the claims do not depend
on (byte-level JWT encoding, the bcrypt compression function, SQL execution)
are modelled by executable Lean functions that preserve the control flow and
the observable outcomes of the corresponding library calls, each documented
at its definition.
-/

namespace Api

/- ===== Token issuer / verifier (src/api/users/auth.py) ===== -/

/-- Payload of a JSON Web Token as seen by the decoder: an optional subject
claim (`payload.get("sub")` may be absent) and an absolute expiry timestamp in
integer Unix seconds, the granularity produced by the `timegm` truncation used
by the jose library. -/
structure JwtPayload where
  sub : Option String
  exp : Int
deriving DecidableEq

/-- A bearer token on the wire: either a string that does not parse as a JWT
at all, or a payload together with its signature. -/
inductive Jwt where
  | malformed : String → Jwt
  | signed : JwtPayload → String → Jwt
deriving DecidableEq

/-- Model of the HMAC signature `jose.jwt.encode` computes over the payload
with the secret key, idealized as an injective encoding of the secret and the
payload, so that signature equality holds exactly for the genuine signature
(collision resistance as exactness). -/
def hmacSign (secret : String) (p : JwtPayload) : String :=
  secret ++ "|" ++ (match p.sub with | none => "-" | some s => "s:" ++ s)
    ++ "|" ++ toString p.exp

/-- Truthiness of the `Optional[timedelta]` argument in Python: `None` and a
zero timedelta are falsy; any nonzero timedelta is truthy.  This is exactly
the test `if expires_delta:` performs in `create_access_token`. -/
def timedeltaTruthy : Option Int → Bool
  | none => false
  | some d => d != 0

/-- The default token lifetime hardcoded in `create_access_token`:
30 days, in seconds. -/
def defaultExpireSeconds : Int := 30 * 86400

/-- `create_access_token` (src/api/users/auth.py): copy the data (the callers
pass a dict whose only key is "sub"), compute the expiry as now plus the given
delta when `if expires_delta:` is truthy and now plus 30 days otherwise, then
sign.  `expires_delta` is the delta in seconds; `now` is the current Unix
time. -/
def create_access_token (secret : String) (sub : String) (now : Int)
    (expires_delta : Option Int) : Jwt :=
  let expire : Int :=
    if timedeltaTruthy expires_delta then now + expires_delta.getD 0
    else now + defaultExpireSeconds
  let payload : JwtPayload := { sub := some sub, exp := expire }
  Jwt.signed payload (hmacSign secret payload)

/-- `decode_access_token` (src/api/users/auth.py): `jose.jwt.decode` verifies
the signature and then the exp claim — with zero leeway a token is expired
exactly when `exp < now`; any `JWTError` (malformed token, bad signature,
expired) is caught and mapped to `None`, and on success the function returns
`payload.get("sub")`, which is itself `None` when the claim is absent. -/
def decode_access_token (secret : String) (now : Int) : Jwt → Option String
  | Jwt.malformed _ => none
  | Jwt.signed p sig =>
    if sig ≠ hmacSign secret p then none
    else if p.exp < now then none
    else p.sub

/- ===== Users and the authorization gate (src/api/users/models.py,
src/api/contrib/dependencies.py) ===== -/

/-- A persisted user row (src/api/users/models.py).  `id` stands for the UUID
column, `created_at` for the timestamp. -/
structure User where
  id : Nat
  username : String
  email : String
  hashed_password : String
  is_active : Bool
  is_superuser : Bool
  created_at : Int
deriving DecidableEq

/-- The two error tiers of the authorization gate: 401 and 403. -/
inductive AuthError where
  | unauthorized
  | forbidden
deriving DecidableEq

/-- `get_current_user` (src/api/contrib/dependencies.py): decode the bearer
token, 401 when decoding yields no subject; look the subject up by username
(`.scalars().first()`, the first matching row), 401 when no user matches;
403 when the user is inactive; otherwise supply the user to the handler. -/
def get_current_user (secret : String) (now : Int) (store : List User)
    (token : Jwt) : Except AuthError User :=
  match decode_access_token secret now token with
  | none => Except.error AuthError.unauthorized
  | some username =>
    match store.find? (fun u => u.username == username) with
    | none => Except.error AuthError.unauthorized
    | some user =>
      if !user.is_active then Except.error AuthError.forbidden
      else Except.ok user

/-- `require_admin` (src/api/contrib/dependencies.py): 403 unless the resolved
user has the admin flag set. -/
def require_admin (current_user : User) : Except AuthError User :=
  if !current_user.is_superuser then Except.error AuthError.forbidden
  else Except.ok current_user

/-- The dependency chain of an admin-only endpoint: resolve the current user
from the bearer token, then apply the admin check. -/
def get_admin_user (secret : String) (now : Int) (store : List User)
    (token : Jwt) : Except AuthError User :=
  (get_current_user secret now store token).bind require_admin

/- ===== Example entity, schemas and partial update
(src/api/example_entity/models.py, src/api/example_entity/schemas.py,
src/api/example_entity/controller.py) ===== -/

/-- A persisted example-entity row at Python attribute level
(src/api/example_entity/models.py): description and value are nullable
columns, name and is_active are not.  `id` stands for the UUID column;
numeric values are modelled as rationals, which is faithful for the order
comparisons the schemas perform. -/
structure Entity where
  id : Nat
  name : String
  description : Option String
  value : Option Rat
  is_active : Bool
  created_at : Int
deriving DecidableEq

/-- `ExampleEntityIn` (src/api/example_entity/schemas.py): the validated
creation payload, with the schema defaults for the optional fields. -/
structure ExampleEntityIn where
  name : String
  description : Option String := none
  value : Option Rat := none
  is_active : Bool := true
deriving DecidableEq

/-- `ExampleEntityUpdate` (src/api/example_entity/schemas.py) after
`model_dump(exclude_unset=True)`: for each field, `none` means the field was
absent from the request body and is omitted from the dump, and `some v` means
it was explicitly present with value `v`; for the nullable columns
description and value an explicitly null value is `some none`.  (An explicit
null for the non-nullable columns name and is_active would pass the schema
but make the later commit fail on the NOT NULL constraint; that degenerate
payload is outside this field-level model.) -/
structure ExampleEntityUpdate where
  name : Option String := none
  description : Option (Option String) := none
  value : Option (Option Rat) := none
  is_active : Option Bool := none
deriving DecidableEq

/-- The setattr loop of `update_entity`
(src/api/example_entity/controller.py): assign onto the loaded row exactly
the fields present in the exclude_unset dump. -/
def applyEntityUpdate (e : Entity) (u : ExampleEntityUpdate) : Entity :=
  { e with
    name := u.name.getD e.name,
    description := u.description.getD e.description,
    value := u.value.getD e.value,
    is_active := u.is_active.getD e.is_active }

/-- `UserUpdate` (src/api/users/schemas.py) after
`model_dump(exclude_unset=True)`, with the same reading as
`ExampleEntityUpdate`. -/
structure UserUpdate where
  email : Option String := none
  password : Option String := none
  is_active : Option Bool := none
deriving DecidableEq

/-- Model of passlib bcrypt hashing (`hash_password` in
src/api/users/auth.py): the real call draws a random salt, modelled here as
an explicit argument.  The embedding relies only on the digest being a
recognized bcrypt-format string, never on one-wayness, so the digest simply
tags the salt and the password length. -/
def hash_password (salt : String) (password : String) : String :=
  "$2b$12$" ++ salt ++ "." ++ toString password.length

/-- The update block of `update_current_user` (src/api/users/controller.py):
dump with exclude_unset, pop a provided password and replace it by
`hashed_password := hash_password(password)`, then assign each dumped field
onto the user row. -/
def applyUserUpdate (salt : String) (user : User) (u : UserUpdate) : User :=
  { user with
    email := u.email.getD user.email,
    hashed_password :=
      match u.password with
      | none => user.hashed_password
      | some pw => hash_password salt pw,
    is_active := u.is_active.getD user.is_active }

/- ===== Sessions, commits and the mutating pipeline
(src/api/example_entity/controller.py) ===== -/

/-- Outcome of a database commit, as distinguished by the except clauses in
the controllers: success, an `IntegrityError`, or any other failure. -/
inductive CommitOutcome where
  | ok
  | integrityError
  | otherError
deriving DecidableEq

/-- HTTP-level error results of the CRUD pipeline. -/
inductive HttpError where
  | notFound
  | conflict
  | internalError
deriving DecidableEq

/-- An open database session: the rows already persisted, plus the session's
working view holding the tentative (uncommitted) changes of the current
request. -/
structure Session (α : Type) where
  persisted : List α
  view : List α
deriving DecidableEq

/-- A fresh session at the start of a request: the view reflects the
persisted rows. -/
def Session.start (db : List α) : Session α := ⟨db, db⟩

/-- `session.add`: stage an insert in the working view. -/
def Session.add (s : Session α) (x : α) : Session α :=
  { s with view := s.view ++ [x] }

/-- A staged mutation of loaded rows (the setattr loop, or `session.delete`):
it changes only the working view. -/
def Session.stage (s : Session α) (f : List α → List α) : Session α :=
  { s with view := f s.view }

/-- `session.commit`: on success the tentative view becomes persistent;
otherwise the commit raises and nothing is persisted. -/
def Session.commit (s : Session α) (outcome : CommitOutcome) :
    Except CommitOutcome (Session α) :=
  match outcome with
  | CommitOutcome.ok => Except.ok { persisted := s.view, view := s.view }
  | e => Except.error e

/-- `session.rollback`: discard every tentative change of the request. -/
def Session.rollback (s : Session α) : Session α :=
  { s with view := s.persisted }

/-- `create_entity` (src/api/example_entity/controller.py): build the output
with a fresh identifier and timestamp, `session.add` it, commit;
`IntegrityError` rolls back and maps to 409, any other failure rolls back
and maps to 500.  Returns the response together with the session after the
request. -/
def create_entity (db : List Entity) (entity_in : ExampleEntityIn)
    (freshId : Nat) (now : Int) (outcome : CommitOutcome) :
    Except HttpError Entity × Session Entity :=
  let entity_out : Entity :=
    { id := freshId, name := entity_in.name,
      description := entity_in.description, value := entity_in.value,
      is_active := entity_in.is_active, created_at := now }
  let s := (Session.start db).add entity_out
  match s.commit outcome with
  | Except.ok s' => (Except.ok entity_out, s')
  | Except.error CommitOutcome.integrityError =>
      (Except.error HttpError.conflict, s.rollback)
  | Except.error _ => (Except.error HttpError.internalError, s.rollback)

/-- `update_entity` (src/api/example_entity/controller.py): look the row up
by identifier (404 when absent), assign the dumped fields, commit;
`IntegrityError` rolls back and maps to 409, any other failure rolls back and
maps to 500. -/
def update_entity (db : List Entity) (entity_id : Nat)
    (entity_update : ExampleEntityUpdate) (outcome : CommitOutcome) :
    Except HttpError Entity × Session Entity :=
  let s := Session.start db
  match s.view.find? (fun e => e.id == entity_id) with
  | none => (Except.error HttpError.notFound, s)
  | some e =>
    let s' := s.stage (List.map
      (fun x => if x.id == entity_id then applyEntityUpdate x entity_update else x))
    match s'.commit outcome with
    | Except.ok s'' => (Except.ok (applyEntityUpdate e entity_update), s'')
    | Except.error CommitOutcome.integrityError =>
        (Except.error HttpError.conflict, s'.rollback)
    | Except.error _ => (Except.error HttpError.internalError, s'.rollback)

/-- `delete_entity` (src/api/example_entity/controller.py): look the row up
by identifier (404 when absent), `session.delete` it, commit; its single
except clause catches every failure, rolls back and maps to 500. -/
def delete_entity (db : List Entity) (entity_id : Nat)
    (outcome : CommitOutcome) : Except HttpError Unit × Session Entity :=
  let s := Session.start db
  match s.view.find? (fun e => e.id == entity_id) with
  | none => (Except.error HttpError.notFound, s)
  | some _ =>
    let s' := s.stage (List.filter (fun x => !(x.id == entity_id)))
    match s'.commit outcome with
    | Except.ok s'' => (Except.ok (), s'')
    | Except.error _ => (Except.error HttpError.internalError, s'.rollback)

/- ===== Registration: schema validation and the register handler
(src/api/users/schemas.py, src/api/users/controller.py) ===== -/

/-- Model of Python `str.lower` for the ASCII data these schemas accept. -/
def lowerStr (s : String) : String :=
  String.mk (s.toList.map Char.toLower)

/-- Model of the `str_strip_whitespace=True` schema configuration
(src/api/contrib/schemas.py): leading and trailing whitespace is removed
from every string field before validation. -/
def stripWs (s : String) : String :=
  String.mk
    (((s.toList.dropWhile Char.isWhitespace).reverse.dropWhile
      Char.isWhitespace).reverse)

/-- The character test of the `username_alphanumeric` validator
(src/api/users/schemas.py): after removing `_`, `-` and `.`, the rest must
be alphanumeric; Python's `isalnum()` is false on an empty string. -/
def usernameCharsOk (v : String) : Bool :=
  let stripped := v.toList.filter (fun c => !(c == '_' || c == '-' || c == '.'))
  !stripped.isEmpty && stripped.all Char.isAlphanum

/-- The full validation of the username field: strip whitespace, check the
3..50 length bounds of the Field, run the `username_alphanumeric` validator
and return its result `v.lower()`. -/
def validate_username (v : String) : Option String :=
  if 3 ≤ (stripWs v).length && (stripWs v).length ≤ 50 &&
      usernameCharsOk (stripWs v) then
    some (lowerStr (stripWs v))
  else none

/-- Split a character list at its first occurrence of `c`. -/
def breakAt (c : Char) : List Char → Option (List Char × List Char)
  | [] => none
  | x :: xs =>
    if x = c then some ([], xs)
    else match breakAt c xs with
      | none => none
      | some (l, r) => some (x :: l, r)

/-- Model of pydantic `EmailStr` validation and normalization (the
email-validator library): the address must have a nonempty local part and a
nonempty domain around a single at sign; normalization lowercases the domain
and keeps the case of the local part. -/
def normalize_email (e : String) : Option String :=
  match breakAt '@' e.toList with
  | none => none
  | some (lp, dom) =>
    if !lp.isEmpty && !dom.isEmpty && !dom.contains '@' then
      some (String.mk (lp ++ '@' :: dom.map Char.toLower))
    else none

/-- The password field validation of `UserCreate`
(src/api/users/schemas.py): 8..100 characters with at least one uppercase
letter, one lowercase letter and one digit. -/
def validate_password (v : String) : Bool :=
  8 ≤ v.length && v.length ≤ 100 && v.toList.any Char.isUpper &&
    v.toList.any Char.isLower && v.toList.any Char.isDigit

/-- A raw registration request body: the three known fields plus the names
of any unknown keys it carries (which `extra='forbid'` in
src/api/contrib/schemas.py rejects). -/
structure RawUserCreate where
  username : String
  email : String
  password : String
  extra : List String := []
deriving DecidableEq

/-- The validated `UserCreate` payload, holding the normalized username and
email. -/
structure UserCreate where
  username : String
  email : String
  password : String
deriving DecidableEq

/-- Parsing a raw body into `UserCreate`: unknown keys are rejected by
`extra='forbid'`, then each field is validated — the username lowered by its
validator, the email normalized by `EmailStr`, the password checked and kept
(after the whitespace strip the configuration applies to every string). -/
def parseUserCreate (raw : RawUserCreate) : Option UserCreate :=
  if raw.extra ≠ [] then none
  else
    match validate_username raw.username, normalize_email (stripWs raw.email) with
    | some un, some em =>
      if validate_password (stripWs raw.password) then
        some { username := un, email := em, password := stripWs raw.password }
      else none
    | _, _ => none

/-- Registration failure outcomes: the two 409 branches of the handler. -/
inductive RegError where
  | conflictUsername
  | conflictEmail
deriving DecidableEq

/-- `register` (src/api/users/controller.py): look up the exact username
(409 when present), then the exact email (409 when present), otherwise
insert a user with `is_active=True` and `is_superuser=False` hardcoded.
Requests are sequential in this model, so with both pre-checks passed the
insert commit succeeds. -/
def register (db : List User) (freshId : Nat) (now : Int) (salt : String)
    (user_in : UserCreate) : Except RegError User × List User :=
  if (db.find? (fun u => u.username == user_in.username)).isSome then
    (Except.error RegError.conflictUsername, db)
  else if (db.find? (fun u => u.email == user_in.email)).isSome then
    (Except.error RegError.conflictEmail, db)
  else
    let user : User :=
      { id := freshId, username := user_in.username, email := user_in.email,
        hashed_password := hash_password salt user_in.password,
        is_active := true, is_superuser := false, created_at := now }
    (Except.ok user, db ++ [user])

/- ===== List endpoints: filtering and ordering
(src/api/example_entity/controller.py, src/api/users/controller.py) ===== -/

/-- Contiguous-substring test on character lists. -/
def containsSub (needle : List Char) : List Char → Bool
  | [] => needle.isEmpty
  | x :: xs => List.isPrefixOf needle (x :: xs) || containsSub needle xs

/-- SQL `ILIKE` with a wildcard on both sides: case-insensitive substring
test. -/
def ilikeContains (hay needle : String) : Bool :=
  containsSub (needle.toList.map Char.toLower) (hay.toList.map Char.toLower)

/-- The filter block of `get_all_entities`: the name filter applies only when
the query string is truthy (`if name:` — absent and empty both skip it), the
is_active filter applies whenever present. -/
def entityFilter (name : Option String) (is_active : Option Bool)
    (e : Entity) : Bool :=
  (match name with
   | none => true
   | some q => if q = "" then true else ilikeContains e.name q) &&
  (match is_active with
   | none => true
   | some b => e.is_active == b)

/-- The `ORDER BY` relation of `get_all_entities`: creation time descending —
the query orders by nothing else. -/
def createdDescRel (a b : Entity) : Prop := b.created_at ≤ a.created_at

instance createdDescRelDecidable : DecidableRel createdDescRel :=
  fun a b => inferInstanceAs (Decidable (b.created_at ≤ a.created_at))

instance createdDescRelTotal : IsTotal Entity createdDescRel :=
  ⟨fun a b => Int.le_total b.created_at a.created_at⟩

instance createdDescRelTrans : IsTrans Entity createdDescRel :=
  ⟨fun _ _ _ hab hbc => le_trans hbc hab⟩

/-- `get_all_entities` (src/api/example_entity/controller.py): apply the
optional filters, then `ORDER BY created_at DESC` and nothing else — there is
no identifier tiebreak.  The database leaves the relative order of rows with
equal keys unspecified; the embedding realizes the sort over the store's row
order. -/
def get_all_entities (db : List Entity) (name : Option String)
    (is_active : Option Bool) : List Entity :=
  List.insertionSort createdDescRel (db.filter (entityFilter name is_active))

/-- The filter block of `list_users` (src/api/users/controller.py): truthy
username and email filters are case-insensitive substring matches, the
is_active filter applies whenever present. -/
def userFilter (username email : Option String) (is_active : Option Bool)
    (u : User) : Bool :=
  (match username with
   | none => true
   | some q => if q = "" then true else ilikeContains u.username q) &&
  (match email with
   | none => true
   | some q => if q = "" then true else ilikeContains u.email q) &&
  (match is_active with
   | none => true
   | some b => u.is_active == b)

/-- The `ORDER BY` relation of `list_users`: creation time descending only. -/
def userCreatedDescRel (a b : User) : Prop := b.created_at ≤ a.created_at

instance userCreatedDescRelDecidable : DecidableRel userCreatedDescRel :=
  fun a b => inferInstanceAs (Decidable (b.created_at ≤ a.created_at))

instance userCreatedDescRelTotal : IsTotal User userCreatedDescRel :=
  ⟨fun a b => Int.le_total b.created_at a.created_at⟩

instance userCreatedDescRelTrans : IsTrans User userCreatedDescRel :=
  ⟨fun _ _ _ hab hbc => le_trans hbc hab⟩

/-- `list_users` (src/api/users/controller.py): apply the optional filters,
then `ORDER BY created_at DESC` and nothing else. -/
def list_users (db : List User) (username email : Option String)
    (is_active : Option Bool) : List User :=
  List.insertionSort userCreatedDescRel
    (db.filter (userFilter username email is_active))

/-- The total order the specification claims for listings: creation time
descending with ties broken by identifier ascending.  Written from the
spec's words, to be compared with the implementation's ordering. -/
def specKeyLt (a b : Entity) : Bool :=
  b.created_at < a.created_at ||
    (a.created_at == b.created_at && a.id < b.id)

/-- Whether a listing is sorted by the order the specification claims. -/
def specOrdered : List Entity → Bool
  | [] => true
  | a :: rest => rest.all (specKeyLt a) && specOrdered rest

/- ===== Value-field validation (src/api/example_entity/schemas.py) ===== -/

/-- The validation of the optional value field: the `PositiveFloat` type
contributes `gt 0` and the Field declaration contributes `ge 0.0`; pydantic
checks both constraints, and an absent or null value passes. -/
def valueFieldOk : Option Rat → Bool
  | none => true
  | some v => decide (0 < v) && decide (0 ≤ v)

/-- The length bounds of the name field: 1..100 characters. -/
def entityNameOk (s : String) : Bool := 1 ≤ s.length && s.length ≤ 100

/-- The length bound of the description field: at most 500 characters. -/
def entityDescOk : Option String → Bool
  | none => true
  | some d => d.length ≤ 500

/-- Body validation of the creation schema `ExampleEntity`
(src/api/example_entity/schemas.py); it runs in the request-parsing layer,
before the handler and hence before any persistence access. -/
def exampleEntityInValid (e : ExampleEntityIn) : Bool :=
  entityNameOk e.name && entityDescOk e.description && valueFieldOk e.value

/-- Body validation of the update schema `ExampleEntityUpdate`: each
constraint applies to the fields present in the body. -/
def exampleEntityUpdateValid (u : ExampleEntityUpdate) : Bool :=
  (match u.name with | none => true | some s => entityNameOk s) &&
  (match u.description with | none => true | some d => entityDescOk d) &&
  (match u.value with | none => true | some v => valueFieldOk v)

/- ===== Password verification (src/api/users/auth.py) ===== -/

/-- Passlib failure surfaced by `CryptContext.verify`. -/
inductive PasslibError where
  | unknownHash
deriving DecidableEq

/-- The digest recognizer of `CryptContext(schemes=["bcrypt"])`: a digest is
identified by its bcrypt format tag. -/
def bcryptIdentify (digest : String) : Bool :=
  List.isPrefixOf "$2b$".toList digest.toList ||
    List.isPrefixOf "$2a$".toList digest.toList ||
    List.isPrefixOf "$2y$".toList digest.toList

/-- Model of `CryptContext.verify` (passlib): per the passlib documentation
it raises `UnknownHashError` (a `ValueError`) when the digest matches no
configured scheme, and otherwise runs the bcrypt comparison, abstracted here
as the argument `bc`. -/
def cryptContextVerify (bc : String → String → Bool)
    (plain digest : String) : Except PasslibError Bool :=
  if bcryptIdentify digest then Except.ok (bc plain digest)
  else Except.error PasslibError.unknownHash

/-- `verify_password` (src/api/users/auth.py): a bare delegation to
`pwd_context.verify`, with no exception handling of its own. -/
def verify_password (bc : String → String → Bool)
    (plain_password hashed_password : String) : Except PasslibError Bool :=
  cryptContextVerify bc plain_password hashed_password

deriving instance DecidableEq for Except

/- ===== Concrete fixtures used to instantiate the theorems ===== -/

/-- An active, non-admin user row. -/
def wAlice : User :=
  { id := 1, username := "alice", email := "alice@example.com",
    hashed_password := "$2b$12$s.9", is_active := true, is_superuser := false,
    created_at := 0 }

/-- The same account with the active flag unset. -/
def wAliceInactive : User :=
  { id := 1, username := "alice", email := "alice@example.com",
    hashed_password := "$2b$12$s.9", is_active := false, is_superuser := false,
    created_at := 0 }

/-- An active admin row for the same subject. -/
def wAliceAdmin : User :=
  { id := 1, username := "alice", email := "alice@example.com",
    hashed_password := "$2b$12$s.9", is_active := true, is_superuser := true,
    created_at := 0 }

/-- A token for alice issued at time 0 with a 60-second lifetime. -/
def wTok : Jwt := create_access_token "k" "alice" 0 (some 60)

/-- Two entity rows sharing a creation time, the larger identifier first. -/
def wEnt1 : Entity :=
  { id := 1, name := "a", description := none, value := none,
    is_active := true, created_at := 5 }

/-- See `wEnt1`. -/
def wEnt2 : Entity :=
  { id := 2, name := "b", description := none, value := none,
    is_active := true, created_at := 5 }

/-- A registration payload whose email has an uppercase local part. -/
def wReg1 : UserCreate :=
  { username := "john", email := "John@example.com", password := "Passw0rdA" }

/-- A second payload: distinct username, same email up to local-part case. -/
def wReg2 : UserCreate :=
  { username := "mary", email := "john@example.com", password := "Passw0rdB" }

/-- The username row created by registering `wReg1` into an empty store. -/
def wUser1 : User :=
  { id := 1, username := "john", email := "John@example.com",
    hashed_password := hash_password "saltA" "Passw0rdA",
    is_active := true, is_superuser := false, created_at := 0 }

/-- The row created by the second registration `wReg2`. -/
def wUser2 : User :=
  { id := 2, username := "mary", email := "john@example.com",
    hashed_password := hash_password "saltB" "Passw0rdB",
    is_active := true, is_superuser := false, created_at := 1 }

/-- The raw body behind `wReg1`. -/
def wRaw1 : RawUserCreate :=
  { username := "john", email := "John@example.com", password := "Passw0rdA" }

/-- The raw body behind `wReg2`. -/
def wRaw2 : RawUserCreate :=
  { username := "mary", email := "john@example.com", password := "Passw0rdB" }

/-- A raw body whose username matches `wRaw1` up to case and whose email
matches it exactly. -/
def wRawDup : RawUserCreate :=
  { username := "JOHN", email := "John@example.com", password := "Passw0rdB" }

/-- The validated payload of `wRawDup`. -/
def wRegDup : UserCreate :=
  { username := "john", email := "John@example.com", password := "Passw0rdB" }

/-- A raw registration body carrying an unknown key. -/
def wRawExtra : RawUserCreate :=
  { username := "eve", email := "eve@example.com", password := "Passw0rdC",
    extra := ["is_superuser"] }

/- ===================== Theorems ===================== -/

/-- A successful username validation returns the whitespace-stripped, lowered
input. -/
theorem validate_username_some {v u : String}
    (h : validate_username v = some u) : u = lowerStr (stripWs v) := by
  unfold validate_username at h
  split at h
  · exact (Option.some_inj.mp h).symm
  · exact Option.noConfusion h

/-- A successfully parsed registration body has the lowered username, the
normalized email, and no unknown keys. -/
theorem parseUserCreate_some {raw : RawUserCreate} {c : UserCreate}
    (h : parseUserCreate raw = some c) :
    c.username = lowerStr (stripWs raw.username) ∧
    normalize_email (stripWs raw.email) = some c.email ∧
    raw.extra = [] := by
  unfold parseUserCreate at h
  split at h
  · exact Option.noConfusion h
  · rename_i hextra
    split at h
    · rename_i un em hun hem
      split at h
      · obtain rfl := Option.some_inj.mp h
        exact ⟨(validate_username_some hun).symm ▸ rfl, hem,
          not_ne_iff.mp hextra⟩
      · exact Option.noConfusion h
    · exact Option.noConfusion h

/-- A successful registration creates the row from the validated payload with
both flags hardcoded, and appends exactly that row to the store. -/
theorem register_ok {db db' : List User} {freshId : Nat} {now : Int}
    {salt : String} {c : UserCreate} {u : User}
    (h : register db freshId now salt c = (Except.ok u, db')) :
    u.username = c.username ∧ u.email = c.email ∧ u.is_active = true ∧
    u.is_superuser = false ∧ db' = db ++ [u] := by
  unfold register at h
  split at h
  · exact absurd (congrArg Prod.fst h) (by simp)
  · split at h
    · exact absurd (congrArg Prod.fst h) (by simp)
    · rw [Prod.mk.injEq] at h
      obtain ⟨h1, h2⟩ := h
      rw [Except.ok.injEq] at h1
      subst h1
      exact ⟨rfl, rfl, rfl, rfl, h2.symm⟩

/-- C1: on a bearer-protected endpoint the gate resolves in this order: a
token that fails verification, or a decoded subject with no matching user
record, yields Unauthorized (401); a matching user whose active flag is unset
yields Forbidden (403); on an admin-only endpoint a resolved active user
whose admin flag is unset yields Forbidden (403); otherwise the resolved user
is supplied to the handler. -/
theorem c1_bearer_gate_resolution_order (secret : String) (now : Int)
    (store : List User) (token : Jwt) :
    (decode_access_token secret now token = none →
      get_current_user secret now store token =
        Except.error AuthError.unauthorized) ∧
    (∀ s, decode_access_token secret now token = some s →
      store.find? (fun u => u.username == s) = none →
      get_current_user secret now store token =
        Except.error AuthError.unauthorized) ∧
    (∀ s u, decode_access_token secret now token = some s →
      store.find? (fun v => v.username == s) = some u → u.is_active = false →
      get_current_user secret now store token =
        Except.error AuthError.forbidden) ∧
    (∀ s u, decode_access_token secret now token = some s →
      store.find? (fun v => v.username == s) = some u → u.is_active = true →
      get_current_user secret now store token = Except.ok u) ∧
    (∀ u, get_current_user secret now store token = Except.ok u →
      u.is_superuser = false →
      get_admin_user secret now store token =
        Except.error AuthError.forbidden) ∧
    (∀ u, get_current_user secret now store token = Except.ok u →
      u.is_superuser = true →
      get_admin_user secret now store token = Except.ok u) := by
  refine ⟨?_, ?_, ?_, ?_, ?_, ?_⟩
  · intro h
    simp [get_current_user, h]
  · intro s h hf
    simp [get_current_user, h, hf]
  · intro s u h hf ha
    simp [get_current_user, h, hf, ha]
  · intro s u h hf ha
    simp [get_current_user, h, hf, ha]
  · intro u h hs
    simp [get_admin_user, h, require_admin, hs, Except.bind]
  · intro u h hs
    simp [get_admin_user, h, require_admin, hs, Except.bind]

/-- Witness for C1: each branch of the gate exercised at concrete stores and
tokens. -/
theorem c1_bearer_gate_resolution_order_witness :
    get_current_user "k" 10 [wAlice] (Jwt.malformed "zz") =
      Except.error AuthError.unauthorized ∧
    get_current_user "k" 10 [] wTok = Except.error AuthError.unauthorized ∧
    get_current_user "k" 10 [wAliceInactive] wTok =
      Except.error AuthError.forbidden ∧
    get_current_user "k" 10 [wAlice] wTok = Except.ok wAlice ∧
    get_admin_user "k" 10 [wAlice] wTok = Except.error AuthError.forbidden ∧
    get_admin_user "k" 10 [wAliceAdmin] wTok = Except.ok wAliceAdmin := by
  refine ⟨?_, ?_, ?_, ?_, ?_, ?_⟩
  · exact (c1_bearer_gate_resolution_order "k" 10 [wAlice]
      (Jwt.malformed "zz")).1 (by decide)
  · exact (c1_bearer_gate_resolution_order "k" 10 [] wTok).2.1 "alice"
      (by decide) (by decide)
  · exact (c1_bearer_gate_resolution_order "k" 10 [wAliceInactive]
      wTok).2.2.1 "alice" wAliceInactive (by decide) (by decide) (by decide)
  · exact (c1_bearer_gate_resolution_order "k" 10 [wAlice]
      wTok).2.2.2.1 "alice" wAlice (by decide) (by decide) (by decide)
  · exact (c1_bearer_gate_resolution_order "k" 10 [wAlice]
      wTok).2.2.2.2.1 wAlice (by decide) (by decide)
  · exact (c1_bearer_gate_resolution_order "k" 10 [wAliceAdmin]
      wTok).2.2.2.2.2 wAliceAdmin (by decide) (by decide)

/-- C2: the partial update assigns exactly the fields explicitly present in
the payload and leaves every other field unchanged, for the example entity
and for the current-user update alike; the empty payload is a no-op. -/
theorem c2_update_frame (e : Entity) (u : ExampleEntityUpdate) (salt : String)
    (usr : User) (uu : UserUpdate) :
    (u.name = none → (applyEntityUpdate e u).name = e.name) ∧
    (u.description = none →
      (applyEntityUpdate e u).description = e.description) ∧
    (u.value = none → (applyEntityUpdate e u).value = e.value) ∧
    (u.is_active = none → (applyEntityUpdate e u).is_active = e.is_active) ∧
    (applyEntityUpdate e u).id = e.id ∧
    (applyEntityUpdate e u).created_at = e.created_at ∧
    (∀ v, u.name = some v → (applyEntityUpdate e u).name = v) ∧
    (∀ v, u.description = some v → (applyEntityUpdate e u).description = v) ∧
    (∀ v, u.value = some v → (applyEntityUpdate e u).value = v) ∧
    (∀ v, u.is_active = some v → (applyEntityUpdate e u).is_active = v) ∧
    applyEntityUpdate e {} = e ∧
    (uu.email = none → (applyUserUpdate salt usr uu).email = usr.email) ∧
    (uu.password = none →
      (applyUserUpdate salt usr uu).hashed_password = usr.hashed_password) ∧
    (uu.is_active = none →
      (applyUserUpdate salt usr uu).is_active = usr.is_active) ∧
    (applyUserUpdate salt usr uu).username = usr.username ∧
    (applyUserUpdate salt usr uu).is_superuser = usr.is_superuser ∧
    (applyUserUpdate salt usr uu).id = usr.id ∧
    (applyUserUpdate salt usr uu).created_at = usr.created_at ∧
    (∀ v, uu.email = some v → (applyUserUpdate salt usr uu).email = v) ∧
    (∀ pw, uu.password = some pw →
      (applyUserUpdate salt usr uu).hashed_password = hash_password salt pw) ∧
    (∀ v, uu.is_active = some v →
      (applyUserUpdate salt usr uu).is_active = v) ∧
    applyUserUpdate salt usr {} = usr := by
  refine ⟨?_, ?_, ?_, ?_, rfl, rfl, ?_, ?_, ?_, ?_, ?_, ?_, ?_, ?_, rfl, rfl,
    rfl, rfl, ?_, ?_, ?_, ?_⟩ <;>
    first
      | (intro h; simp [applyEntityUpdate, applyUserUpdate, h])
      | (intro v h; simp [applyEntityUpdate, applyUserUpdate, h])
      | simp [applyEntityUpdate, applyUserUpdate]

/-- Witness for C2: the empty payload fixes every field, and a full payload
assigns every field, at concrete rows. -/
theorem c2_update_frame_witness :
    (applyEntityUpdate wEnt1 {} ).name = wEnt1.name ∧
    applyEntityUpdate wEnt1 {} = wEnt1 ∧
    (applyEntityUpdate wEnt1 { name := some "renamed" }).name = "renamed" ∧
    applyUserUpdate "s" wAlice {} = wAlice ∧
    (applyUserUpdate "s" wAlice { password := some "NewPassw0rd" }).hashed_password
      = hash_password "s" "NewPassw0rd" := by
  refine ⟨?_, ?_, ?_, ?_, ?_⟩
  · exact (c2_update_frame wEnt1 {} "s" wAlice {}).1 rfl
  · exact (c2_update_frame wEnt1 {} "s" wAlice {}).2.2.2.2.2.2.2.2.2.2.1
  · exact (c2_update_frame wEnt1 { name := some "renamed" } "s" wAlice
      {}).2.2.2.2.2.2.1 "renamed" rfl
  · exact (c2_update_frame wEnt1 {} "s" wAlice
      {}).2.2.2.2.2.2.2.2.2.2.2.2.2.2.2.2.2.2.2.2.2
  · exact (c2_update_frame wEnt1 {} "s" wAlice
      { password := some "NewPassw0rd" }).2.2.2.2.2.2.2.2.2.2.2.2.2.2.2.2.2.2.2.1
      "NewPassw0rd" rfl

/-- C3, failing input: `create_access_token` tests its optional delta with
`if expires_delta:`, and in Python a zero timedelta is falsy, so a token
issued with ttl = 0 silently receives the default 30-day expiry instead of
expiring at once.  The claim says such a token fails verification; here a
ttl = 0 token issued at time 0 still verifies a full day later and
round-trips to its subject, because the falsy branch was taken. -/
theorem c3_ttl_zero_token_still_verifies :
    decode_access_token "secret-key" 86400
      (create_access_token "secret-key" "alice" 0 (some 0)) = some "alice" ∧
    timedeltaTruthy (some 0) = false ∧
    create_access_token "secret-key" "alice" 0 (some 0) =
      create_access_token "secret-key" "alice" 0 none := by
  refine ⟨by decide, rfl, rfl⟩

/-- C4: when the commit of a mutating operation fails, the operation rolls
back before surfacing its error: the persisted store after the failed
create, partial-update or delete request equals the store before it, and the
response is an error. -/
theorem c4_failed_mutations_roll_back (db : List Entity)
    (entity_in : ExampleEntityIn) (freshId : Nat) (now : Int) (eid : Nat)
    (u : ExampleEntityUpdate) (outcome : CommitOutcome)
    (h : outcome ≠ CommitOutcome.ok) :
    (create_entity db entity_in freshId now outcome).2.persisted = db ∧
    (∃ err, (create_entity db entity_in freshId now outcome).1 =
      Except.error err) ∧
    (update_entity db eid u outcome).2.persisted = db ∧
    (∃ err, (update_entity db eid u outcome).1 = Except.error err) ∧
    (delete_entity db eid outcome).2.persisted = db ∧
    (∃ err, (delete_entity db eid outcome).1 = Except.error err) := by
  have hupd : (update_entity db eid u outcome).2.persisted = db ∧
      (∃ err, (update_entity db eid u outcome).1 = Except.error err) := by
    rw [update_entity]
    cases hf : (Session.start db).view.find? (fun e => e.id == eid) with
    | none =>
      simp [hf, Session.start]
    | some e =>
      cases outcome with
      | ok => exact absurd rfl h
      | integrityError =>
        simp [hf, Session.commit, Session.stage, Session.rollback,
          Session.start]
      | otherError =>
        simp [hf, Session.commit, Session.stage, Session.rollback,
          Session.start]
  have hdel : (delete_entity db eid outcome).2.persisted = db ∧
      (∃ err, (delete_entity db eid outcome).1 = Except.error err) := by
    rw [delete_entity]
    cases hf : (Session.start db).view.find? (fun e => e.id == eid) with
    | none =>
      simp [hf, Session.start]
    | some e =>
      cases outcome with
      | ok => exact absurd rfl h
      | integrityError =>
        simp [hf, Session.commit, Session.stage, Session.rollback,
          Session.start]
      | otherError =>
        simp [hf, Session.commit, Session.stage, Session.rollback,
          Session.start]
  cases outcome with
  | ok => exact absurd rfl h
  | integrityError =>
    exact ⟨rfl, ⟨HttpError.conflict, rfl⟩, hupd.1, hupd.2, hdel.1, hdel.2⟩
  | otherError =>
    exact ⟨rfl, ⟨HttpError.internalError, rfl⟩, hupd.1, hupd.2, hdel.1,
      hdel.2⟩

/-- Witness for C4: a failing commit at a concrete store leaves it
unchanged for all three operations. -/
theorem c4_failed_mutations_roll_back_witness :
    (create_entity [wEnt1] { name := "n" } 2 9
      CommitOutcome.integrityError).2.persisted = [wEnt1] ∧
    (∃ err, (update_entity [wEnt1] 1 { name := some "m" }
      CommitOutcome.otherError).1 = Except.error err) ∧
    (delete_entity [wEnt1] 1 CommitOutcome.otherError).2.persisted =
      [wEnt1] := by
  refine ⟨?_, ?_, ?_⟩
  · exact (c4_failed_mutations_roll_back [wEnt1] { name := "n" } 2 9 1
      { name := some "m" } CommitOutcome.integrityError (by decide)).1
  · exact (c4_failed_mutations_roll_back [wEnt1] { name := "n" } 2 9 1
      { name := some "m" } CommitOutcome.otherError (by decide)).2.2.2.1
  · exact (c4_failed_mutations_roll_back [wEnt1] { name := "n" } 2 9 1
      { name := some "m" } CommitOutcome.otherError (by decide)).2.2.2.2.1

/-- C6: the token verifier returns either a subject or the single sentinel
`none`; a malformed token, a bad signature and an expired token all produce
that same sentinel, so the caller cannot tell the failures apart from the
result. -/
theorem c6_verifier_single_sentinel (secret : String) (now : Int) (t : Jwt) :
    (∀ s, t = Jwt.malformed s → decode_access_token secret now t = none) ∧
    (∀ p sig, t = Jwt.signed p sig → sig ≠ hmacSign secret p →
      decode_access_token secret now t = none) ∧
    (∀ p sig, t = Jwt.signed p sig → p.exp < now →
      decode_access_token secret now t = none) ∧
    (decode_access_token secret now t = none ∨
      ∃ s, decode_access_token secret now t = some s) := by
  refine ⟨?_, ?_, ?_, ?_⟩
  · intro s hs
    subst hs; rfl
  · intro p sig hsig hbad
    subst hsig; simp [decode_access_token, hbad]
  · intro p sig hsig hexp
    subst hsig
    by_cases hb : sig = hmacSign secret p
    · simp [decode_access_token, hb, hexp, Int.not_le.mpr hexp]
    · simp [decode_access_token, hb]
  · cases hr : decode_access_token secret now t with
    | none => exact Or.inl rfl
    | some s => exact Or.inr ⟨s, rfl⟩

/-- Witness for C6: a malformed token, an altered signature and an expired
token each map to the sentinel at concrete inputs. -/
theorem c6_verifier_single_sentinel_witness :
    decode_access_token "k" 10 (Jwt.malformed "junk") = none ∧
    decode_access_token "k" 10
      (Jwt.signed { sub := some "alice", exp := 60 } "tampered") = none ∧
    decode_access_token "k" 500
      (Jwt.signed { sub := some "alice", exp := 60 }
        (hmacSign "k" { sub := some "alice", exp := 60 })) = none := by
  refine ⟨?_, ?_, ?_⟩
  · exact (c6_verifier_single_sentinel "k" 10 (Jwt.malformed "junk")).1
      "junk" rfl
  · exact (c6_verifier_single_sentinel "k" 10
      (Jwt.signed { sub := some "alice", exp := 60 } "tampered")).2.1
      { sub := some "alice", exp := 60 } "tampered" rfl (by decide)
  · exact (c6_verifier_single_sentinel "k" 500
      (Jwt.signed { sub := some "alice", exp := 60 }
        (hmacSign "k" { sub := some "alice", exp := 60 }))).2.2.1
      { sub := some "alice", exp := 60 }
      (hmacSign "k" { sub := some "alice", exp := 60 }) rfl (by decide)

/-- C7, counterexample: on a malformed digest, `verify_password` does not
return false — the underlying `CryptContext.verify` raises passlib's
`UnknownHashError`, which propagates uncaught past the caller. -/
theorem c7_counterexample_malformed_digest_raises :
    verify_password (fun _ _ => false) "MyPassword123" "not-a-digest" =
      Except.error PasslibError.unknownHash ∧
    verify_password (fun _ _ => false) "MyPassword123" "not-a-digest" ≠
      Except.ok false := by
  exact ⟨by decide, by decide⟩

/-- C7 as amended: for a digest in a recognized bcrypt format the
verification returns the boolean bcrypt comparison; for a malformed digest
it raises `UnknownHashError` to the caller instead of returning false. -/
theorem c7_verify_password_behavior (bc : String → String → Bool)
    (plain digest : String) :
    (bcryptIdentify digest = true →
      verify_password bc plain digest = Except.ok (bc plain digest)) ∧
    (bcryptIdentify digest = false →
      verify_password bc plain digest =
        Except.error PasslibError.unknownHash) := by
  constructor
  · intro h
    simp [verify_password, cryptContextVerify, h]
  · intro h
    simp [verify_password, cryptContextVerify, h]

/-- Witness for C7's amended theorem at a recognized and an unrecognized
digest. -/
theorem c7_verify_password_behavior_witness :
    verify_password (fun _ _ => true) "pw" "$2b$12$abc" = Except.ok true ∧
    verify_password (fun _ _ => true) "pw" "plaintext-digest" =
      Except.error PasslibError.unknownHash := by
  constructor
  · exact (c7_verify_password_behavior (fun _ _ => true) "pw"
      "$2b$12$abc").1 (by decide)
  · exact (c7_verify_password_behavior (fun _ _ => true) "pw"
      "plaintext-digest").2 (by decide)

/-- C9, counterexample: the claim says zero is accepted for the optional
value field, but the field's `PositiveFloat` type enforces strictly greater
than zero on top of the `ge=0` bound, so zero is rejected by both the
creation schema and the update schema. -/
theorem c9_counterexample_zero_rejected :
    valueFieldOk (some 0) = false ∧
    exampleEntityInValid { name := "Example Item", value := some 0 } =
      false ∧
    exampleEntityUpdateValid { value := some (some 0) } = false := by
  exact ⟨by decide, by decide, by decide⟩

/-- C9 as amended: an absent or null value passes, a strictly positive value
passes, and zero and every negative value are rejected by schema validation
— hence before any persistence access, since body validation precedes the
handler. -/
theorem c9_value_validation (v : Rat) (e : ExampleEntityIn)
    (u : ExampleEntityUpdate) :
    valueFieldOk none = true ∧
    (valueFieldOk (some v) = true ↔ 0 < v) ∧
    (e.value = some v → v ≤ 0 → exampleEntityInValid e = false) ∧
    (u.value = some (some v) → v ≤ 0 →
      exampleEntityUpdateValid u = false) := by
  have hv : valueFieldOk (some v) = true ↔ 0 < v := by
    simp only [valueFieldOk, Bool.and_eq_true, decide_eq_true_eq]
    constructor
    · exact fun h => h.1
    · exact fun h => ⟨h, le_of_lt h⟩
  refine ⟨rfl, hv, ?_, ?_⟩
  · intro he hle
    have : valueFieldOk e.value = false := by
      rw [he]
      cases hb : valueFieldOk (some v) with
      | false => rfl
      | true => exact absurd (hv.mp hb) (not_lt.mpr hle)
    simp [exampleEntityInValid, this]
  · intro hu hle
    have : valueFieldOk (some v) = false := by
      cases hb : valueFieldOk (some v) with
      | false => rfl
      | true => exact absurd (hv.mp hb) (not_lt.mpr hle)
    simp [exampleEntityUpdateValid, hu, this]

/-- Witness for C9's amended theorem: at value -1 both schemas reject, and a
positive value passes. -/
theorem c9_value_validation_witness :
    exampleEntityInValid { name := "n", value := some (-1) } = false ∧
    exampleEntityUpdateValid { value := some (some (-1)) } = false ∧
    (valueFieldOk (some 1) = true ↔ 0 < (1 : Rat)) := by
  refine ⟨?_, ?_, ?_⟩
  · exact (c9_value_validation (-1) { name := "n", value := some (-1) }
      { value := some (some (-1)) }).2.2.1 rfl (by norm_num)
  · exact (c9_value_validation (-1) { name := "n", value := some (-1) }
      { value := some (some (-1)) }).2.2.2 rfl (by norm_num)
  · exact (c9_value_validation 1 { name := "n", value := some 1 }
      { value := some (some 1) }).2.1

/-- C5, counterexample: two registrations whose emails differ only in the
case of the local part both succeed.  The duplicate-email check compares the
EmailStr-normalized addresses exactly, and that normalization lowercases
only the domain, so the second registration returns the created user, not
Conflict. -/
theorem c5_counterexample_email_local_case :
    parseUserCreate wRaw1 = some wReg1 ∧
    parseUserCreate wRaw2 = some wReg2 ∧
    (register [] 1 0 "saltA" wReg1).1 = Except.ok wUser1 ∧
    (register (register [] 1 0 "saltA" wReg1).2 2 1 "saltB" wReg2).1 =
      Except.ok wUser2 := by
  exact ⟨by decide, by decide, by decide, by decide⟩

/-- C5 as amended: after a successful registration, a second registration
whose username equals the first's up to letter case fails with Conflict; a
second registration whose email equals the first's after EmailStr
normalization — which lowercases only the domain, so the local part is
compared case-sensitively — fails with Conflict. -/
theorem c5_duplicate_registration_conflicts (db db' : List User)
    (raw1 raw2 : RawUserCreate) (c1 c2 : UserCreate) (id1 id2 : Nat)
    (t1 t2 : Int) (s1 s2 : String) (u1 : User)
    (h1 : parseUserCreate raw1 = some c1)
    (h2 : parseUserCreate raw2 = some c2)
    (hreg : register db id1 t1 s1 c1 = (Except.ok u1, db')) :
    (lowerStr (stripWs raw2.username) = lowerStr (stripWs raw1.username) →
      ∃ err, (register db' id2 t2 s2 c2).1 = Except.error err) ∧
    (normalize_email (stripWs raw2.email) =
        normalize_email (stripWs raw1.email) →
      ∃ err, (register db' id2 t2 s2 c2).1 = Except.error err) := by
  obtain ⟨hu1, he1, -⟩ := parseUserCreate_some h1
  obtain ⟨hu2, he2, -⟩ := parseUserCreate_some h2
  obtain ⟨hru, hre, -, -, hdb⟩ := register_ok hreg
  constructor
  · intro hsame
    have husername : c2.username = c1.username := by rw [hu2, hu1, hsame]
    have hfind : (db'.find? (fun v => v.username == c2.username)).isSome =
        true := by
      rw [List.find?_isSome]
      exact ⟨u1, by simp [hdb], by simp [hru, husername]⟩
    exact ⟨RegError.conflictUsername, by simp [register, hfind]⟩
  · intro hsame
    have hemail : c2.email = c1.email := by
      have hx := he2
      rw [hsame, he1] at hx
      exact (Option.some_inj.mp hx).symm
    by_cases hU : (db'.find? (fun v => v.username == c2.username)).isSome =
        true
    · exact ⟨RegError.conflictUsername, by simp [register, hU]⟩
    · have hU' : (db'.find? (fun v => v.username == c2.username)).isSome =
          false := by
        simpa using hU
      have hfindE : (db'.find? (fun v => v.email == c2.email)).isSome =
          true := by
        rw [List.find?_isSome]
        exact ⟨u1, by simp [hdb], by simp [hre, hemail]⟩
      exact ⟨RegError.conflictEmail, by simp [register, hU', hfindE]⟩

/-- Witness for C5's amended theorem: a second body with the username in
capitals and the same email conflicts on both grounds. -/
theorem c5_duplicate_registration_conflicts_witness :
    (∃ err, (register [wUser1] 2 1 "saltB" wRegDup).1 = Except.error err) ∧
    (∃ err, (register [wUser1] 2 1 "saltB" wRegDup).1 =
      Except.error err) := by
  constructor
  · exact (c5_duplicate_registration_conflicts [] [wUser1] wRaw1 wRawDup
      wReg1 wRegDup 1 2 0 1 "saltA" "saltB" wUser1 (by decide) (by decide)
      (by decide)).1 (by decide)
  · exact (c5_duplicate_registration_conflicts [] [wUser1] wRaw1 wRawDup
      wReg1 wRegDup 1 2 0 1 "saltA" "saltB" wUser1 (by decide) (by decide)
      (by decide)).2 (by decide)

/-- C8, counterexample: the list query orders by creation time descending
and nothing else — there is no identifier tiebreak — so a store holding two
rows with equal creation times in descending-identifier order is returned in
that order, falsifying the claimed identifier-ascending tie order. -/
theorem c8_counterexample_no_id_tiebreak :
    get_all_entities [wEnt2, wEnt1] none none = [wEnt2, wEnt1] ∧
    wEnt2.created_at = wEnt1.created_at ∧
    wEnt1.id < wEnt2.id ∧
    specOrdered (get_all_entities [wEnt2, wEnt1] none none) = false := by
  exact ⟨by decide, by decide, by decide, by decide⟩

/-- C8 as amended: each list operation returns the filtered candidate set
sorted by creation time descending (a permutation of it); rows with equal
creation times carry no identifier tiebreak, their relative order being the
underlying row order of the store. -/
theorem c8_list_ordering (db : List Entity) (name : Option String)
    (b : Option Bool) (udb : List User) (uname uemail : Option String)
    (ub : Option Bool) :
    List.Sorted createdDescRel (get_all_entities db name b) ∧
    List.Perm (get_all_entities db name b)
      (db.filter (entityFilter name b)) ∧
    List.Sorted userCreatedDescRel (list_users udb uname uemail ub) ∧
    List.Perm (list_users udb uname uemail ub)
      (udb.filter (userFilter uname uemail ub)) := by
  exact ⟨List.sorted_insertionSort createdDescRel _,
    List.perm_insertionSort createdDescRel _,
    List.sorted_insertionSort userCreatedDescRel _,
    List.perm_insertionSort userCreatedDescRel _⟩

/-- C10: a successful registration always stores an active, non-admin user:
the body parsed by the schema carried no unknown key (extra='forbid' rejects
any), and the handler hardcodes the active and admin flags, so no caller of
the public interface can create an admin or inactive account through
registration. -/
theorem c10_registration_hardcodes_flags (db db' : List User)
    (raw : RawUserCreate) (c : UserCreate) (freshId : Nat) (now : Int)
    (salt : String) (u : User)
    (hp : parseUserCreate raw = some c)
    (hr : register db freshId now salt c = (Except.ok u, db')) :
    u.is_active = true ∧ u.is_superuser = false ∧ raw.extra = [] ∧
    (∀ raw2 : RawUserCreate, raw2.extra ≠ [] →
      parseUserCreate raw2 = none) := by
  obtain ⟨-, -, hextra⟩ := parseUserCreate_some hp
  obtain ⟨-, -, hact, hsup, -⟩ := register_ok hr
  refine ⟨hact, hsup, hextra, ?_⟩
  intro raw2 h2
  unfold parseUserCreate
  rw [if_pos h2]

/-- Witness for C10: the concrete registration of `wRaw1` yields an active,
non-admin row, and a body with an unknown key is rejected. -/
theorem c10_registration_hardcodes_flags_witness :
    wUser1.is_active = true ∧ wUser1.is_superuser = false ∧
    parseUserCreate wRawExtra = none := by
  have h := c10_registration_hardcodes_flags [] [wUser1] wRaw1 wReg1 1 0
    "saltA" wUser1 (by decide) (by decide)
  exact ⟨h.1, h.2.1, h.2.2.2 wRawExtra (by decide)⟩

end Api
